import Mathlib

/-!
Verification of the bubble layout engine of the crypto risk-bubble chart.

The repository contains two variants of one React component
(`src/src/components/BubbleChart2.tsx` and `src/unnamed/part_000`), both of
which hand a list of crypto records to a d3 force simulation.  The layout
relevant code is embedded here over exact rationals:

  * `initializedData` mirrors the per-record initialisation
    (`x: Math.random() * WIDTH`, `y: HEIGHT - (Risk/100)*HEIGHT`,
    `radius: (bubbleSize ? (bubbleSize*BASE)%200 : BASE)/2`), with the
    ambient `Math.random` stream made an explicit argument;
  * `boundClamp` / `boundForce` mirror the custom "bound" force that clamps
    every position into the canvas on every tick;
  * `tick` / `runSim` mirror the d3 alpha schedule as configured
    (`alphaDecay(0.02)`, `alphaTarget(0)`, d3 default `alphaMin = 0.001`),
    with the numeric forces abstracted as a state-update parameter;
  * `stepHost` / `runHost` model the host lifecycle (React effect cleanup
    plus the d3 timer): a new layout pass first stops the active simulation,
    and a stopped simulation receives no further ticks;
  * `layoutEffect` mirrors the early return of the layout effect when the
    container is absent or the filtered data is empty.
-/

/-- Input record shape used by the component (the fields the layout reads).
`bubbleSize` is an optional number; JS truthiness of `d.bubbleSize` is
`some b` with `b` nonzero. -/
structure CryptoData where
  Symbol : String
  Risk : ℚ
  Icon : String
  volume : ℚ
  bubbleSize : Option ℚ
deriving DecidableEq

/-- The constant `CONTAINER_WIDTH = 1140` (variant `BubbleChart2.tsx`). -/
def CONTAINER_WIDTH : ℚ := 1140

/-- The constant `CONTAINER_HEIGHT = 600` (both variants). -/
def CONTAINER_HEIGHT : ℚ := 600

/-- The constant `BASE_BUBBLE_SIZE = 80` (variant `BubbleChart2.tsx`); the other
variant inlines the literal `48`. -/
def BASE_BUBBLE_SIZE : ℚ := 80

/-- The constant `MIN_WIDTH = 800` (variant `part_000`): every chart width reachable
through the resize handler satisfies `MIN_WIDTH ≤ width`. -/
def MIN_WIDTH : ℚ := 800

/-- JS truthiness of the optional numeric field `d.bubbleSize`. -/
def truthy : Option ℚ → Bool
  | none => false
  | some b => b != 0

/-- The JS remainder operator `a % n` on numbers: `a - n * trunc (a / n)`
(the result carries the sign of the dividend). -/
def jsfmod (a n : ℚ) : ℚ :=
  if 0 ≤ a / n then a - n * (⌊a / n⌋ : ℚ) else a - n * (⌈a / n⌉ : ℚ)

/-- The radius expression `(d.bubbleSize ? (d.bubbleSize * BASE_BUBBLE_SIZE)%200 :
BASE_BUBBLE_SIZE) / 2` (variant `BubbleChart2.tsx`, line 146). -/
def radiusOf (d : CryptoData) : ℚ :=
  (if truthy d.bubbleSize then jsfmod (d.bubbleSize.getD 0 * BASE_BUBBLE_SIZE) 200
   else BASE_BUBBLE_SIZE) / 2

/-- The radius expression `(d.bubbleSize ? (d.bubbleSize * 48) % 200 : 48) / 2`
(variant `part_000`, line 152). -/
def radiusOf48 (d : CryptoData) : ℚ :=
  (if truthy d.bubbleSize then jsfmod (d.bubbleSize.getD 0 * 48) 200
   else 48) / 2

/-- The y target used both for the initial `y` and as the `forceY` accessor:
`CONTAINER_HEIGHT - (d.Risk / 100) * CONTAINER_HEIGHT` (lines 145 and
152-154; identical in both variants). -/
def yTarget (d : CryptoData) : ℚ :=
  CONTAINER_HEIGHT - d.Risk / 100 * CONTAINER_HEIGHT

/-- The y target as the specification words it: the mapping formula clamped
to the interval `[radius, height - radius]`.  Stated only to be compared
with the source formula `yTarget`, which does not clamp. -/
def yTargetSpec (d : CryptoData) : ℚ :=
  max (radiusOf d) (min (CONTAINER_HEIGHT - radiusOf d) (yTarget d))

/-- A simulation node: one input record together with the mutable layout
fields `x`, `y`, `radius` that `initializedData` adds. -/
structure SimNode where
  data : CryptoData
  x : ℚ
  y : ℚ
  radius : ℚ
deriving DecidableEq

/-- One element of `initializedData` (variant `BubbleChart2.tsx`): the spread
record plus `x: Math.random() * CONTAINER_WIDTH`, the risk-mapped `y`, and
the modular radius.  `r` stands for the value drawn from `Math.random()`. -/
def initItem (r : ℚ) (d : CryptoData) : SimNode :=
  { data := d
    x := r * CONTAINER_WIDTH
    y := CONTAINER_HEIGHT - d.Risk / 100 * CONTAINER_HEIGHT
    radius := radiusOf d }

/-- The array `initializedData = filteredData.map(d => ...)` (lines 142-147), with the
ambient `Math.random` made explicit as a stream of draws: element `i` of the
result consumes draw `i`. -/
def initializedData : (ℕ → ℚ) → List CryptoData → List SimNode
  | _, [] => []
  | rand, d :: rest => initItem (rand 0) d :: initializedData (fun n => rand (n + 1)) rest

/-- One element of the variant `part_000` initialisation: `x` is drawn over
the current `chartWidth` and the base bubble size is `48`. -/
def initItem48 (r chartWidth : ℚ) (d : CryptoData) : SimNode :=
  { data := d
    x := r * chartWidth
    y := CONTAINER_HEIGHT - d.Risk / 100 * CONTAINER_HEIGHT
    radius := radiusOf48 d }

/-- Variant `part_000` initialisation over an explicit `chartWidth`. -/
def initializedData48 : (ℕ → ℚ) → ℚ → List CryptoData → List SimNode
  | _, _, [] => []
  | rand, w, d :: rest =>
      initItem48 (rand 0) w d :: initializedData48 (fun n => rand (n + 1)) w rest

/-- The body of the custom `force("bound")` applied to a single node:
`d.x = Math.max(d.radius, Math.min(width - d.radius, d.x))` and the same for
`y` against the height (lines 156-161 resp. 162-167). -/
def boundClamp (width height : ℚ) (n : SimNode) : SimNode :=
  { n with
    x := max n.radius (min (width - n.radius) n.x)
    y := max n.radius (min (height - n.radius) n.y) }

/-- The custom `force("bound")`: the clamp applied to every node of the
working array, once per simulation tick. -/
def boundForce (width height : ℚ) (ns : List SimNode) : List SimNode :=
  ns.map (boundClamp width height)

/-- d3 default `alphaMin` (the simulation stops when `alpha < alphaMin`). -/
def alphaMin : ℚ := 1 / 1000

/-- The setting `.alphaDecay(0.02)` as configured at lines 162-164 resp. 168-170. -/
def alphaDecaySetting : ℚ := 1 / 50

/-- The setting `.alphaTarget(0)` as configured at lines 162-164 resp. 168-170. -/
def alphaTargetSetting : ℚ := 0

/-- Simulation working state: the cooling coefficient and the node array. -/
structure SimState where
  alpha : ℚ
  nodes : List SimNode

/-- The d3 per-tick alpha update `alpha += (alphaTarget - alpha) * alphaDecay`
with the configured settings. -/
def tickAlpha (a : ℚ) : ℚ :=
  a + (alphaTargetSetting - a) * alphaDecaySetting

/-- One simulation tick: cool alpha, then apply the registered forces to the
node array.  The numeric forces (charge, collide, y, x, bound) are abstracted
as the function `applyForces`; the termination facts below hold for every
such function. -/
def tick (applyForces : List SimNode → List SimNode) (s : SimState) : SimState :=
  { alpha := tickAlpha s.alpha, nodes := applyForces s.nodes }

/-- The d3 stepper: keep ticking while `alphaMin ≤ alpha`; stop as soon as
`alpha < alphaMin`.  The fuel argument bounds the number of ticks inspected;
the Boolean result records whether the stop condition was reached within the
fuel. -/
def runSim (applyForces : List SimNode → List SimNode) : ℕ → SimState → SimState × Bool
  | 0, s => (s, decide (s.alpha < alphaMin))
  | n + 1, s =>
      if s.alpha < alphaMin then (s, true)
      else runSim applyForces n (tick applyForces s)

/-- An event visible to the host lifecycle model: a new layout pass starts
(new filtered data or a new chart width re-runs the effect), or the d3 timer
offers a tick to the simulation with the given identifier. -/
inductive HostEvent where
  | newPass (id : ℕ)
  | tickOf (id : ℕ)
deriving DecidableEq

/-- Host lifecycle state: which simulation is active, which simulations have
had `stop()` invoked, and the log of simulation identifiers whose tick
mutated the shared positions. -/
structure HostState where
  active : Option ℕ
  stopped : List ℕ
  mutLog : List ℕ
deriving DecidableEq

/-- Modelled from the spec: the React effect lifecycle and the d3 timer are
host facilities not contained in the repository sources.  The repository
registers `return () => simulation.stop()` as the effect cleanup
(lines 195-198 resp. 200-203); React runs the cleanup of the previous effect
before re-running it, and a simulation whose `stop()` has run receives no
further ticks from the d3 timer. -/
def stepHost (s : HostState) (e : HostEvent) : HostState :=
  match e with
  | .newPass b =>
      match s.active with
      | some a => { active := some b, stopped := a :: s.stopped, mutLog := s.mutLog }
      | none => { active := some b, stopped := s.stopped, mutLog := s.mutLog }
  | .tickOf i =>
      if s.active = some i ∧ i ∉ s.stopped then
        { active := s.active, stopped := s.stopped, mutLog := i :: s.mutLog }
      else s

/-- The host lifecycle run over a sequence of events. -/
def runHost (s : HostState) (es : List HostEvent) : HostState :=
  es.foldl stepHost s

/-- The rendered children of the chart container div. -/
structure RenderedContainer where
  children : List SimNode
deriving DecidableEq

/-- The layout effect (lines 136-147 resp. 142-153):
`if (!containerRef.current || !filteredData.length) return;` and otherwise
remove all children and rebuild them from `initializedData`.  The Boolean
result records whether a simulation was started. -/
def layoutEffect (rand : ℕ → ℚ) (container : Option RenderedContainer)
    (filteredData : List CryptoData) : Option RenderedContainer × Bool :=
  match container with
  | none => (none, false)
  | some c =>
      if filteredData.isEmpty then (some c, false)
      else (some { children := initializedData rand filteredData }, true)

/-- A concrete record with risk 0 and no bubble size (radius defaults to
`BASE_BUBBLE_SIZE / 2 = 40` in the first variant). -/
def riskZeroItem : CryptoData :=
  { Symbol := "X", Risk := 0, Icon := "", volume := 0, bubbleSize := none }

/-- A concrete malformed record: risk outside `[0,100]` and a bubble size
whose scaled value `5/2 * 80 = 200` is an exact multiple of `200`, so the
modular radius is `0`. -/
def badItem : CryptoData :=
  { Symbol := "BAD", Risk := 150, Icon := "", volume := 0, bubbleSize := some (5 / 2) }

/-- The JS remainder by `200` is always strictly below `200`, whatever the
dividend. -/
theorem jsfmod_lt_200 (a : ℚ) : jsfmod a 200 < 200 := by
  unfold jsfmod
  by_cases h : 0 ≤ a / 200
  · simp only [h, if_true]
    have h1 : a / 200 - (⌊a / 200⌋ : ℚ) < 1 := by
      have h2 := Int.fract_lt_one (a / 200)
      rw [Int.fract] at h2
      linarith
    linarith
  · simp only [h, if_false]
    have h2 : a / 200 ≤ (⌈a / 200⌉ : ℚ) := Int.le_ceil _
    linarith

/-- The JS remainder of an exact integer multiple of `200` by `200` is `0`. -/
theorem jsfmod_int_mul (k : ℤ) : jsfmod (200 * (k : ℚ)) 200 = 0 := by
  unfold jsfmod
  have hdiv : (200 * (k : ℚ)) / 200 = (k : ℚ) := by norm_num
  rw [hdiv]
  by_cases h : (0 : ℚ) ≤ (k : ℚ)
  · simp only [h, if_true, Int.floor_intCast]
    ring
  · simp only [h, if_false, Int.ceil_intCast]
    ring

/-- Claim C9: for a record with truthy `bubbleSize = b`, the radius handed to
the simulation is `((b * BASE) mod 200) / 2` (`BASE = 80` in one variant,
`48` in the other), hence always strictly below `100`, and it is exactly `0`
whenever `b * BASE` is an exact multiple of `200`. -/
theorem c9_radius_formula (d : CryptoData) (b : ℚ)
    (hd : d.bubbleSize = some b) (hb : b ≠ 0) :
    radiusOf d = jsfmod (b * 80) 200 / 2 ∧
    radiusOf48 d = jsfmod (b * 48) 200 / 2 ∧
    radiusOf d < 100 ∧
    radiusOf48 d < 100 ∧
    (∀ k : ℤ, b * 80 = 200 * (k : ℚ) → radiusOf d = 0) := by
  have ht : truthy d.bubbleSize = true := by
    rw [hd]; simp [truthy, hb]
  have h80 : radiusOf d = jsfmod (b * 80) 200 / 2 := by
    unfold radiusOf
    rw [ht, hd]
    simp [BASE_BUBBLE_SIZE]
  have h48 : radiusOf48 d = jsfmod (b * 48) 200 / 2 := by
    unfold radiusOf48
    rw [ht, hd]
    simp
  refine ⟨h80, h48, ?_, ?_, ?_⟩
  · rw [h80]
    have := jsfmod_lt_200 (b * 80)
    linarith
  · rw [h48]
    have := jsfmod_lt_200 (b * 48)
    linarith
  · intro k hk
    rw [h80, hk, jsfmod_int_mul]
    norm_num

/-- Witness for C9 at the record `badItem` (`bubbleSize = 5/2`, so the scaled
size is the exact multiple `200` and the radius collapses to `0`). -/
theorem c9_radius_formula_witness :
    radiusOf badItem = 0 ∧ radiusOf badItem < 100 ∧ radiusOf48 badItem < 100 :=
  ⟨(c9_radius_formula badItem (5 / 2) rfl (by norm_num)).2.2.2.2 1 (by norm_num),
   (c9_radius_formula badItem (5 / 2) rfl (by norm_num)).2.2.1,
   (c9_radius_formula badItem (5 / 2) rfl (by norm_num)).2.2.2.1⟩

/-- Claim C4: the pre-collision target y is strictly decreasing in the risk
value — for records with risks in `[0,100]`, a strictly smaller risk gives a
strictly larger target y (lower risk sits lower on the canvas). -/
theorem c4_risk_monotone (a b : CryptoData)
    (h0a : 0 ≤ a.Risk) (h1a : a.Risk ≤ 100)
    (h0b : 0 ≤ b.Risk) (h1b : b.Risk ≤ 100)
    (hab : a.Risk < b.Risk) :
    yTarget b < yTarget a := by
  unfold yTarget CONTAINER_HEIGHT
  linarith

/-- A concrete record with risk 75 (well inside `[0,100]`). -/
def risk75Item : CryptoData :=
  { Symbol := "Y", Risk := 75, Icon := "", volume := 0, bubbleSize := none }

/-- Witness for C4: risk 0 versus risk 75 on the 600px canvas. -/
theorem c4_risk_monotone_witness : yTarget risk75Item < yTarget riskZeroItem :=
  c4_risk_monotone riskZeroItem risk75Item
    (by norm_num [riskZeroItem]) (by norm_num [riskZeroItem])
    (by norm_num [risk75Item]) (by norm_num [risk75Item])
    (by norm_num [riskZeroItem, risk75Item])

/-- Claim C10: with an empty filtered list (or an absent container) the
layout effect does nothing — the existing children are kept unchanged and no
simulation is started. -/
theorem c10_empty_data_no_work :
    (∀ (rand : ℕ → ℚ) (c : RenderedContainer),
        layoutEffect rand (some c) [] = (some c, false)) ∧
    (∀ (rand : ℕ → ℚ) (items : List CryptoData),
        layoutEffect rand none items = (none, false)) := by
  constructor
  · intro rand c; rfl
  · intro rand items; rfl

/-- Counterexample for C3: at risk 0 the mapper hands out
`y = 600`, not the spec-clamped `600 - radius = 560` — the source formula
performs no clamping. -/
theorem c3_target_unclamped_counterexample :
    yTarget riskZeroItem ≠ yTargetSpec riskZeroItem := by
  norm_num [yTarget, yTargetSpec, radiusOf, truthy, riskZeroItem,
    CONTAINER_HEIGHT, BASE_BUBBLE_SIZE, min_def, max_def]

/-- Claim C3 (amended): every node produced by `initializedData` carries the
unclamped target `y = height - (risk/100) * height`, which is also the
`forceY` accessor value; no clamp to `[radius, height - radius]` is applied
by the mapper (containment is enforced separately by the bound force). -/
theorem c3_target_formula (rand : ℕ → ℚ) (data : List CryptoData) :
    ∀ n ∈ initializedData rand data,
      n.y = CONTAINER_HEIGHT - n.data.Risk / 100 * CONTAINER_HEIGHT ∧
      n.y = yTarget n.data := by
  induction data generalizing rand with
  | nil =>
      intro n hn
      simp [initializedData] at hn
  | cons d rest ih =>
      intro n hn
      simp only [initializedData, List.mem_cons] at hn
      rcases hn with h | h
      · subst h
        exact ⟨rfl, rfl⟩
      · exact ih (fun n => rand (n + 1)) n h

/-- Witness for C3 (amended) at the one-element list `[riskZeroItem]`. -/
theorem c3_target_formula_witness :
    (initItem 0 riskZeroItem).y =
      CONTAINER_HEIGHT - (initItem 0 riskZeroItem).data.Risk / 100 * CONTAINER_HEIGHT ∧
    (initItem 0 riskZeroItem).y = yTarget (initItem 0 riskZeroItem).data :=
  c3_target_formula (fun _ => 0) [riskZeroItem] (initItem 0 riskZeroItem)
    (by simp [initializedData])

/-- A node with radius 40 sitting at the origin, too big for a 10px canvas. -/
def wideNode : SimNode := { data := riskZeroItem, x := 0, y := 0, radius := 40 }

/-- Counterexample for C2: on a 10 by 10 canvas a node of radius 40 cannot
satisfy `radius ≤ x ≤ width - radius` after the clamp — the bound force
yields `x = 40 > 10 - 40`, so the containment claim fails for arbitrary
canvas sizes and radii. -/
theorem c2_bound_clamp_counterexample :
    ¬ (wideNode.radius ≤ (boundClamp 10 10 wideNode).x ∧
       (boundClamp 10 10 wideNode).x ≤ 10 - wideNode.radius ∧
       wideNode.radius ≤ (boundClamp 10 10 wideNode).y ∧
       (boundClamp 10 10 wideNode).y ≤ 10 - wideNode.radius) := by
  intro h
  have hx := h.2.1
  norm_num [boundClamp, wideNode, min_def, max_def] at hx

/-- Claim C2 (amended): after any tick whose force chain ends in the bound
force, every node lies in `[radius, width - radius] × [radius, height -
radius]`, provided each node fits the canvas (`2 * radius ≤ width` and
`2 * radius ≤ height` — always true in this component, where the width is at
least `MIN_WIDTH = 800`, the height is `600`, and every produced radius is
below `100`). -/
theorem c2_bound_clamp_in_range (width height : ℚ)
    (f : List SimNode → List SimNode) (s : SimState)
    (h : ∀ n ∈ f s.nodes, 2 * n.radius ≤ width ∧ 2 * n.radius ≤ height) :
    ∀ m ∈ (tick (fun ns => boundForce width height (f ns)) s).nodes,
      m.radius ≤ m.x ∧ m.x ≤ width - m.radius ∧
      m.radius ≤ m.y ∧ m.y ≤ height - m.radius := by
  intro m hm
  simp only [tick, boundForce, List.mem_map] at hm
  obtain ⟨n, hn, rfl⟩ := hm
  obtain ⟨hw, hh⟩ := h n hn
  simp only [boundClamp]
  refine ⟨le_max_left _ _, ?_, le_max_left _ _, ?_⟩
  · exact max_le (by linarith) (min_le_left _ _)
  · exact max_le (by linarith) (min_le_left _ _)

/-- A node far outside the 1140 by 600 canvas. -/
def strayNode : SimNode := { data := riskZeroItem, x := 2000, y := -5, radius := 40 }

/-- Witness for C2 (amended): the stray node is clamped into the canvas on a
tick over the real container dimensions. -/
theorem c2_bound_clamp_in_range_witness :
    (boundClamp 1140 600 strayNode).radius ≤ (boundClamp 1140 600 strayNode).x ∧
    (boundClamp 1140 600 strayNode).x ≤ 1140 - (boundClamp 1140 600 strayNode).radius ∧
    (boundClamp 1140 600 strayNode).radius ≤ (boundClamp 1140 600 strayNode).y ∧
    (boundClamp 1140 600 strayNode).y ≤ 600 - (boundClamp 1140 600 strayNode).radius :=
  c2_bound_clamp_in_range 1140 600 id { alpha := 1, nodes := [strayNode] }
    (by
      intro n hn
      simp only [id_eq, List.mem_singleton] at hn
      subst hn
      norm_num [strayNode])
    (boundClamp 1140 600 strayNode)
    (by simp [tick, boundForce])

/-- With the configured decay, each tick scales alpha by `49/50`; once the
scaled alpha falls below `alphaMin` the stepper reports a stop within the
inspected number of ticks, for every force function and every state. -/
theorem runSim_stops (f : List SimNode → List SimNode) :
    ∀ (n : ℕ) (s : SimState),
      s.alpha * (49 / 50) ^ n < alphaMin → (runSim f n s).2 = true := by
  intro n
  induction n with
  | zero =>
      intro s h
      rw [pow_zero, mul_one] at h
      simp [runSim, h]
  | succ k ih =>
      intro s h
      rw [runSim]
      by_cases hs : s.alpha < alphaMin
      · simp [hs]
      · simp only [hs, if_false]
        apply ih
        have halpha : (tick f s).alpha = s.alpha * (49 / 50) := by
          simp only [tick, tickAlpha, alphaTargetSetting, alphaDecaySetting]
          ring
        rw [halpha]
        calc s.alpha * (49 / 50) * (49 / 50) ^ k
            = s.alpha * (49 / 50) ^ (k + 1) := by ring
          _ < alphaMin := h

/-- Claim C5: for every force behaviour and every initial node set (however
dense), the simulation started at `alpha = 1` with `alphaDecay(0.02)` and
`alphaTarget(0)` reaches the stop condition `alpha < alphaMin` within 342
ticks — the tick loop halts in bounded work regardless of the input. -/
theorem c5_termination (f : List SimNode → List SimNode) (ns : List SimNode) :
    (runSim f 342 { alpha := 1, nodes := ns }).2 = true := by
  apply runSim_stops
  show (1 : ℚ) * (49 / 50) ^ 342 < alphaMin
  rw [one_mul, alphaMin]
  norm_num

/-- A simulation that is in the stopped set stays stopped for the rest of
any event trace, and its mutation count never grows again. -/
theorem stopped_stable (a : ℕ) :
    ∀ (es : List HostEvent) (s : HostState), a ∈ s.stopped →
      (runHost s es).mutLog.count a = s.mutLog.count a ∧
      a ∈ (runHost s es).stopped := by
  intro es
  induction es with
  | nil =>
      intro s h
      exact ⟨rfl, h⟩
  | cons e rest ih =>
      intro s h
      have hstep : a ∈ (stepHost s e).stopped ∧
          (stepHost s e).mutLog.count a = s.mutLog.count a := by
        cases e with
        | newPass b =>
            cases hact : s.active with
            | none => simp [stepHost, hact, h]
            | some c => simp [stepHost, hact, List.mem_cons, h]
        | tickOf i =>
            by_cases hc : s.active = some i ∧ i ∉ s.stopped
            · have hne : i ≠ a := by
                intro he
                exact hc.2 (he ▸ h)
              simp [stepHost, hc, h, List.count_cons, hne]
            · simp [stepHost, hc, h]
      have hrun : runHost s (e :: rest) = runHost (stepHost s e) rest := rfl
      rw [hrun]
      obtain ⟨hcount, hmem⟩ := ih (stepHost s e) hstep.1
      exact ⟨by rw [hcount, hstep.2], hmem⟩

/-- Claim C6: when a new layout pass B starts while pass A is active, the
effect cleanup stops A first (A enters the stopped set), and over every
subsequent event trace not a single further mutation is attributed to A —
the mutation count of A never changes after B starts. -/
theorem c6_cancellation (s : HostState) (a b : ℕ) (hact : s.active = some a)
    (es : List HostEvent) :
    a ∈ (stepHost s (.newPass b)).stopped ∧
    (runHost (stepHost s (.newPass b)) es).mutLog.count a = s.mutLog.count a := by
  have hstop : a ∈ (stepHost s (HostEvent.newPass b)).stopped := by
    simp [stepHost, hact]
  have hlog : (stepHost s (HostEvent.newPass b)).mutLog = s.mutLog := by
    simp [stepHost, hact]
  obtain ⟨hcount, _⟩ := stopped_stable a es (stepHost s (HostEvent.newPass b)) hstop
  exact ⟨hstop, by rw [hcount, hlog]⟩

/-- The host state with pass 0 active and an empty mutation log. -/
def hostA : HostState := { active := some 0, stopped := [], mutLog := [] }

/-- Witness for C6: pass 1 starts while pass 0 is active; even if the timer
then offers ticks to both passes, pass 0 logs no mutation. -/
theorem c6_cancellation_witness :
    0 ∈ (stepHost hostA (.newPass 1)).stopped ∧
    (runHost (stepHost hostA (.newPass 1))
      [.tickOf 0, .tickOf 1]).mutLog.count 0 = hostA.mutLog.count 0 :=
  c6_cancellation hostA 0 1 rfl [.tickOf 0, .tickOf 1]

/-- Counterexample for C7: the initial x placement reads the ambient
`Math.random` global (modelled as the stream of draws), not a seed passed in
with the input — two runs over identical items and canvas but different
ambient draws produce different coordinates. -/
theorem c7_determinism_counterexample :
    initializedData (fun _ => 0) [riskZeroItem] ≠
      initializedData (fun _ => (1 : ℚ) / 2) [riskZeroItem] := by
  intro h
  have h1 : initItem 0 riskZeroItem = initItem ((1 : ℚ) / 2) riskZeroItem := by
    have h2 := congrArg List.head? h
    simpa [initializedData] using h2
  have hx := congrArg SimNode.x h1
  norm_num [initItem, CONTAINER_WIDTH] at hx

/-- Claim C7 (amended): the layout initialisation is deterministic only
relative to the random draws — two runs over the same items and canvas agree
as soon as the ambient `Math.random` outputs agree on the first
`data.length` draws.  No seed input exists in the code. -/
theorem c7_determinism_given_draws :
    ∀ (data : List CryptoData) (r₁ r₂ : ℕ → ℚ),
      (∀ n, n < data.length → r₁ n = r₂ n) →
      initializedData r₁ data = initializedData r₂ data := by
  intro data
  induction data with
  | nil =>
      intro r₁ r₂ h
      rfl
  | cons d rest ih =>
      intro r₁ r₂ h
      simp only [initializedData]
      have h0 : r₁ 0 = r₂ 0 := h 0 (by simp)
      rw [h0]
      have htail : ∀ n, n < rest.length → r₁ (n + 1) = r₂ (n + 1) := by
        intro n hn
        exact h (n + 1) (by simpa using Nat.succ_lt_succ hn)
      rw [ih (fun n => r₁ (n + 1)) (fun n => r₂ (n + 1)) htail]

/-- Witness for C7 (amended): two streams that agree on draw 0 give the same
one-element layout, even though they differ from draw 1 on. -/
theorem c7_determinism_given_draws_witness :
    initializedData (fun _ => 0) [riskZeroItem] =
      initializedData (fun n => if n = 0 then 0 else 1) [riskZeroItem] :=
  c7_determinism_given_draws [riskZeroItem]
    (fun _ => 0) (fun n => if n = 0 then 0 else 1)
    (by
      intro n hn
      simp only [List.length_singleton, Nat.lt_one_iff] at hn
      simp [hn])

/-- The malformed record `badItem` keeps its radius at exactly `0`: the
scaled bubble size `5/2 * 80 = 200` reduces to `0` modulo `200`. -/
theorem radiusOf_badItem : radiusOf badItem = 0 := by
  have hb : truthy badItem.bubbleSize = true := by
    simp [truthy, badItem]
  unfold radiusOf
  rw [hb]
  have hv : (badItem.bubbleSize.getD 0 * BASE_BUBBLE_SIZE : ℚ) = 200 * ((1 : ℤ) : ℚ) := by
    norm_num [badItem, BASE_BUBBLE_SIZE]
  simp only [if_true]
  rw [hv, jsfmod_int_mul]
  norm_num

/-- Counterexample for C8: the engine does not normalise invalid fields —
the record with `Risk = 150` and `bubbleSize = 5/2` is handed to the
simulation with its risk value unclamped (150, outside `[0,100]`) and with
radius exactly `0`, not raised to any positive epsilon. -/
theorem c8_no_normalization_counterexample :
    ¬ ((initItem 0 badItem).data.Risk ≤ 100 ∧ 0 < (initItem 0 badItem).radius) := by
  intro h
  have hr : (initItem 0 badItem).radius = 0 := radiusOf_badItem
  rw [hr] at h
  exact lt_irrefl 0 h.2

/-- Claim C8 (amended): initialisation applies no clamping, but it is total
and per-record — the output has one node per input record, and node `i` is
exactly the (unnormalised) image of record `i` under the initialisation
formulas, so a malformed record never aborts the layout of the others. -/
theorem c8_total_per_record (rand : ℕ → ℚ) (data : List CryptoData) (i : ℕ) :
    (initializedData rand data).length = data.length ∧
    (initializedData rand data)[i]? = (data[i]?).map (initItem (rand i)) := by
  induction data generalizing rand i with
  | nil => simp [initializedData]
  | cons d rest ih =>
      constructor
      · simp only [initializedData, List.length_cons]
        rw [(ih (fun n => rand (n + 1)) 0).1]
      · cases i with
        | zero => simp [initializedData]
        | succ k =>
            simp only [initializedData, List.getElem?_cons_succ]
            exact (ih (fun n => rand (n + 1)) k).2
